import Mathlib

/-!
Shallow embedding of the Discord gateway session manager in
`src/keepalive.py` (class `DiscordKeepAlive` plus the `main` startup
path), together with proofs of the behavioural properties claimed for
it.

Modelling conventions:
* Timestamps and intervals are natural numbers; machine-level time is
  irrelevant to the claims.
* Python truthiness on the `sequence` / `session_id` attributes
  (`if self.sequence`, `if data.get('s')`) is modelled explicitly by
  `truthyNat` / `truthyStr` on `Option` values.
* Transport connectivity at the i-th send attempt of a `send_json`
  call is an oracle `conn : Nat → Bool`; the websocket send succeeds
  exactly when the socket is connected at that attempt.
* The nested `connect()` loop reached from `reconnect()` runs a whole
  new websocket session, so its effect on the state is kept abstract
  as a parameter `connectEff`.
-/

namespace Keepalive

/-- Python truthiness of an optional integer: `None` and `0` are falsy. -/
def truthyNat : Option Nat → Bool
  | none => false
  | some n => n != 0

/-- Python truthiness of an optional string: `None` and `""` are falsy. -/
def truthyStr : Option String → Bool
  | none => false
  | some s => s != ""

/-- The mutable attributes of `DiscordKeepAlive` (src/keepalive.py,
`__init__`, lines 65-85) that the claims are about.  `wsPresent`
models `self.ws is not None`; the two `ThreadAlive` flags model the
`hasattr`/`is_alive` checks guarding thread starts. -/
structure KState where
  token : String
  wsPresent : Bool
  heartbeat_interval : Nat
  sequence : Option Nat
  session_id : Option String
  running : Bool
  last_heartbeat_ack : Nat
  reconnect_attempts : Nat
  connected_at : Option Nat
  heartbeatThreadAlive : Bool
  statusThreadAlive : Bool
deriving DecidableEq, Repr

/-- `__init__` with a present token (lines 74-85): default attribute
values.  `now` stands for the `time.time()` stored in
`last_heartbeat_ack`. -/
def initState (tok : String) (now : Nat) : KState :=
  { token := tok
    wsPresent := false
    heartbeat_interval := 41250
    sequence := none
    session_id := none
    running := true
    last_heartbeat_ack := now
    reconnect_attempts := 0
    connected_at := none
    heartbeatThreadAlive := false
    statusThreadAlive := false }

/-- `__init__` raises `ValueError` when `DISCORD_TOKEN` is absent
(lines 66-70). -/
def initClient (now : Nat) : Option String → Except String KState
  | none => Except.error "DISCORD_TOKEN is required"
  | some tok => Except.ok (initState tok now)

/-- Outbound gateway frames built by the manager. -/
inductive Frame where
  | heartbeat (d : Option Nat)
  | identifyFrame (token : String)
  | resumeFrame (session_id : String) (seq : Nat)
deriving DecidableEq, Repr

/-- The fields of an inbound gateway frame that the message handler
reads: `op`, `t`, `s`, and the two `d` projections it uses
(`d['heartbeat_interval']` for Hello, `d.get('session_id')` for
READY). -/
structure InFrame where
  op : Nat
  t : Option String
  s : Option Nat
  d_session_id : Option String
  d_heartbeat_interval : Option Nat
deriving DecidableEq, Repr

/-- `max_retries` in `send_json` (line 205). -/
def max_retries : Nat := 3

/-- The attempt loop of `send_json` (lines 203-219), starting at
attempt index `i` with the given fuel.  Returns
`(success, attemptsMade)`: the send succeeds (and one frame goes out)
at the first attempt where the socket is connected; a disconnected
socket raises, which the loop catches and retries until the fuel
(`max_retries`) is spent. -/
def sendJsonFrom (conn : Nat → Bool) (i : Nat) : Nat → Bool × Nat
  | 0 => (false, 0)
  | fuel + 1 =>
    if conn i then (true, 1)
    else
      let r := sendJsonFrom conn (i + 1) fuel
      (r.1, r.2 + 1)

/-- `send_json` (lines 203-219): up to `max_retries` attempts. -/
def send_json (conn : Nat → Bool) : Bool × Nat :=
  sendJsonFrom conn 0 max_retries

/-- `identify` (lines 221-250): builds the op-2 payload carrying the
token and hands it to `send_json`; the state is not modified either
way, only the success is logged.  Returns
(state, success, frames actually sent). -/
def identify (conn : Nat → Bool) (st : KState) : KState × Bool × List Frame :=
  if (send_json conn).1 then (st, true, [Frame.identifyFrame st.token])
  else (st, false, [])

/-- `resume` (lines 252-267): guarded by the Python truthiness test
`if self.session_id and self.sequence`; the op-6 payload carries the
stored session id and sequence.  Returns
(state, success, frames actually sent). -/
def resume (conn : Nat → Bool) (st : KState) : KState × Bool × List Frame :=
  if truthyStr st.session_id && truthyNat st.sequence then
    if (send_json conn).1 then
      (st, true, [Frame.resumeFrame (st.session_id.getD "") (st.sequence.getD 0)])
    else (st, false, [])
  else (st, false, [])

/-- `reconnect` (lines 366-380): close the socket, clear `sequence`
("Reset some state but keep session info for resuming"), and
re-enter `connect()`, whose effect on state is the abstract
`connectEff`. -/
def reconnect (connectEff : KState → KState) (st : KState) : KState :=
  connectEff { st with sequence := none }

/-- `resume_or_reconnect` (lines 269-274): try `resume`, and on
failure fall back to `reconnect`. -/
def resume_or_reconnect (connectEff : KState → KState) (conn : Nat → Bool)
    (st : KState) : KState × List Frame :=
  let r := resume conn st
  if r.2.1 then (r.1, r.2.2) else (reconnect connectEff r.1, r.2.2)

/-- The sequence-update prelude of `on_message` (lines 141-143):
`if data.get('s'): self.sequence = data['s']` — a falsy `s` (absent
or zero) leaves the stored sequence unchanged. -/
def updateSeq (cur s : Option Nat) : Option Nat :=
  if truthyNat s then s else cur

/-- `on_message` applies the sequence prelude to the whole state. -/
def updateSequence (st : KState) (f : InFrame) : KState :=
  { st with sequence := updateSeq st.sequence f.s }

/-- `on_message` (lines 133-190): sequence prelude, then opcode
dispatch.  A Hello without `heartbeat_interval` raises `KeyError`,
which the enclosing `except` swallows after the prelude has already
run.  `now` is the `time.time()` stored on Heartbeat-ACK.  Returns
the new state and the frames sent while handling the message. -/
def onMessage (connectEff : KState → KState) (conn : Nat → Bool) (now : Nat)
    (st : KState) (f : InFrame) : KState × List Frame :=
  let st1 := updateSequence st f
  if f.op = 10 then
    match f.d_heartbeat_interval with
    | none => (st1, [])
    | some iv =>
      let st2 := { st1 with heartbeat_interval := iv }
      let r := identify conn st2
      ({ r.1 with heartbeatThreadAlive := true }, r.2.2)
  else if f.op = 11 then
    ({ st1 with last_heartbeat_ack := now }, [])
  else if f.op = 0 then
    if f.t = some "READY" then
      ({ st1 with session_id := f.d_session_id, statusThreadAlive := true }, [])
    else (st1, [])
  else if f.op = 9 then
    resume_or_reconnect connectEff conn st1
  else if f.op = 7 then
    resume_or_reconnect connectEff conn st1
  else (st1, [])

/-- `on_open` (lines 127-131): reset the reconnect-attempt counter and
record the connection time. -/
def on_open (now : Nat) (st : KState) : KState :=
  { st with reconnect_attempts := 0, connected_at := some now }

/-- `stop` (lines 393-402): clear the running flag and close the
socket if one is present; any close error is swallowed by the
`try`/`except`.  Returns (state, closedTransport, raisedError). -/
def stop (st : KState) : KState × Bool × Bool :=
  ({ st with running := false }, st.wsPresent, false)

/-- The backoff wait computed in `connect` (lines 115 and 124):
`min(2 ** attempts, 30)` seconds after the attempt counter has been
incremented to `attempts`. -/
def backoffWait (attempts : Nat) : Nat :=
  min (2 ^ attempts) 30

/-- The delays produced by `n` consecutive failed attempts of the
`connect` loop, entered with the attempt counter at `a`: the counter
is incremented before each wait. -/
def connectDelays (a n : Nat) : List Nat :=
  (List.range n).map (fun i => backoffWait (a + i + 1))

/-! ### Heartbeat loop (lines 276-317)

One iteration of `heartbeat_loop` is driven by two environment facts:
whether the ACK-staleness test `time_since_ack > 2 * interval` fired
(`ackTimeout`), and whether the heartbeat send went through
(`sendOk`). -/

/-- `max_missed_heartbeats` (line 281). -/
def max_missed_heartbeats : Nat := 3

/-- Environment of one `heartbeat_loop` iteration. -/
structure HBInput where
  ackTimeout : Bool
  sendOk : Bool
deriving DecidableEq, Repr

/-- One iteration of the `heartbeat_loop` body acting on the local
`missed_heartbeats` counter: on a stale ACK the counter is
incremented and checked against the threshold (`none` = reconnect
triggered, loop broken); on a fresh ACK it is reset to `0`; either
way a failed heartbeat send adds one more. -/
def hbStep (missed : Nat) (i : HBInput) : Option Nat :=
  if i.ackTimeout then
    if missed + 1 ≥ max_missed_heartbeats then none
    else some (if i.sendOk then missed + 1 else missed + 2)
  else
    some (if i.sendOk then 0 else 1)

/-- Number of reconnects triggered by a run of the heartbeat loop over
the given iteration environments (the loop breaks right after a
reconnect, so later inputs are not processed). -/
def hbReconnects (missed : Nat) : List HBInput → Nat
  | [] => 0
  | i :: rest =>
    match hbStep missed i with
    | none => 1
    | some m => hbReconnects m rest

/-- Specification-side predicate: the run contains three consecutive
missed acknowledgments. -/
def hasRun3 : List Bool → Bool
  | b1 :: b2 :: b3 :: rest => (b1 && b2 && b3) || hasRun3 (b2 :: b3 :: rest)
  | _ => false

/-- The first `k` elements of the list are all `true`. -/
def headRun : Nat → List Bool → Bool
  | 0, _ => true
  | _ + 1, [] => false
  | k + 1, b :: rest => b && headRun k rest

/-! ### Sequence/heartbeat interleaving (lines 141-143 and 302-309)

Within one connection generation, the events that matter to heartbeat
payloads are inbound frames (each carrying an optional `s`) and the
heartbeat sends of the loop. -/

/-- An event of one connection generation, as seen by the stored
sequence number. -/
inductive GEvent where
  | inbound (s : Option Nat)
  | beat
deriving DecidableEq, Repr

/-- The payload of a heartbeat frame (lines 303-306):
`self.sequence if self.sequence else None`. -/
def heartbeatPayload (cur : Option Nat) : Option Nat :=
  if truthyNat cur then cur else none

/-- The stored sequence number after processing a list of events:
inbound frames update it through `updateSeq`, heartbeat sends leave
it alone. -/
def seqAfter (cur : Option Nat) : List GEvent → Option Nat
  | [] => cur
  | GEvent.inbound s :: rest => seqAfter (updateSeq cur s) rest
  | GEvent.beat :: rest => seqAfter cur rest

/-- The heartbeat payloads sent during a run, in order. -/
def sentBeats (cur : Option Nat) : List GEvent → List (Option Nat)
  | [] => []
  | GEvent.inbound s :: rest => sentBeats (updateSeq cur s) rest
  | GEvent.beat :: rest => heartbeatPayload cur :: sentBeats cur rest

/-- Specification-side notion: the most recent sequence number
observed in the inbound frames of the run (`acc` is what was observed
before the run; the manager starts a generation with `none`). -/
def lastObservedSeq (acc : Option Nat) : List GEvent → Option Nat
  | [] => acc
  | GEvent.inbound (some n) :: rest => lastObservedSeq (some n) rest
  | GEvent.inbound none :: rest => lastObservedSeq acc rest
  | GEvent.beat :: rest => lastObservedSeq acc rest

/-- Number of heartbeat sends in a run. -/
def countBeats : List GEvent → Nat
  | [] => 0
  | GEvent.beat :: rest => countBeats rest + 1
  | GEvent.inbound _ :: rest => countBeats rest

/-! ### Startup path of `main` (lines 470-545) -/

/-- The startup-visible outcome of `main`.  `gatewayConnections` is
the number of gateway connections the process goes on to open. -/
structure MainOutcome where
  printedInstructions : Bool
  exitCode : Nat
  clientConstructed : Bool
  gatewayConnections : Nat
deriving DecidableEq, Repr

/-- The startup decision of `main` (lines 479-495): a missing
`DISCORD_TOKEN` prints the setup instructions and returns (exit 0)
before `DiscordKeepAlive()` is constructed or any connection is
opened; with a token present the client is constructed and the
background connect loop opens `backgroundConnections` connections. -/
def mainStartup (backgroundConnections : Nat) : Option String → MainOutcome
  | none =>
    { printedInstructions := true
      exitCode := 0
      clientConstructed := false
      gatewayConnections := 0 }
  | some _ =>
    { printedInstructions := false
      exitCode := 0
      clientConstructed := true
      gatewayConnections := backgroundConnections }

/-! ### Helper lemmas -/

/-- If the socket is never connected, all attempts are used and the
send fails. -/
lemma sendJsonFrom_all_false (conn : Nat → Bool) (h : ∀ i, conn i = false) :
    ∀ fuel i, sendJsonFrom conn i fuel = (false, fuel) := by
  intro fuel
  induction fuel with
  | zero => intro i; rfl
  | succ n ih => intro i; simp [sendJsonFrom, h i, ih (i + 1)]

/-- A head run of three missed acknowledgments is a run of three. -/
lemma headRun_three_imp (l : List Bool) (h : headRun 3 l = true) :
    hasRun3 l = true := by
  match l with
  | [] => simp [headRun] at h
  | [a] => simp [headRun] at h
  | [a, b] => simp [headRun] at h
  | a :: b :: c :: rest =>
    simp [headRun] at h
    simp [hasRun3, h.1, h.2.1, h.2.2]

/-- A head run of two is in particular a head run of one. -/
lemma headRun_two_imp_one (l : List Bool) (h : headRun 2 l = true) :
    headRun 1 l = true := by
  match l with
  | [] => simp [headRun] at h
  | a :: rest =>
    simp [headRun] at h ⊢
    exact h.1

/-- Unfolding `hasRun3` across a cons cell. -/
lemma hasRun3_cons (b : Bool) (l : List Bool) :
    hasRun3 (b :: l) = ((b && headRun 2 l) || hasRun3 l) := by
  match l with
  | [] => cases b <;> simp [hasRun3, headRun]
  | [c] => cases b <;> simp [hasRun3, headRun]
  | c :: d :: rest => simp [hasRun3, headRun, Bool.and_assoc]

/-- Bridge between the heartbeat-loop recursion and the sliding-window
run predicate: with all sends succeeding and the counter at `m ≤ 2`,
the loop reconnects exactly when the remaining trace opens with
`3 - m` missed ACKs or contains three consecutive missed ACKs. -/
lemma hbReconnects_eq (l : List HBInput) :
    (∀ i ∈ l, i.sendOk = true) → ∀ m, m ≤ 2 →
    hbReconnects m l =
      if (headRun (3 - m) (l.map HBInput.ackTimeout)
          || hasRun3 (l.map HBInput.ackTimeout)) then 1 else 0 := by
  induction l with
  | nil =>
    intro _ m hm
    interval_cases m <;> simp [hbReconnects, headRun, hasRun3]
  | cons i rest ih =>
    intro hsend m hm
    have hi : i.sendOk = true := hsend i (List.mem_cons_self i rest)
    have hrest : ∀ j ∈ rest, j.sendOk = true :=
      fun j hj => hsend j (List.mem_cons_of_mem i hj)
    cases hack : i.ackTimeout with
    | false =>
      have step : hbStep m i = some 0 := by simp [hbStep, hack, hi]
      have lhs : hbReconnects m (i :: rest) = hbReconnects 0 rest := by
        simp [hbReconnects, step]
      rw [lhs, ih hrest 0 (by omega), List.map_cons, hack]
      have hcons : hasRun3 (false :: List.map HBInput.ackTimeout rest)
          = hasRun3 (List.map HBInput.ackTimeout rest) := by
        rw [hasRun3_cons]; simp
      have hhead : headRun (3 - m) (false :: List.map HBInput.ackTimeout rest)
          = false := by
        interval_cases m <;> simp [headRun]
      rw [hcons, hhead]
      have hcond : (headRun (3 - 0) (List.map HBInput.ackTimeout rest)
          || hasRun3 (List.map HBInput.ackTimeout rest))
          = hasRun3 (List.map HBInput.ackTimeout rest) := by
        simp only [Nat.sub_zero]
        cases hh : headRun 3 (List.map HBInput.ackTimeout rest)
        · simp
        · simp [headRun_three_imp _ hh]
      rw [hcond]
      simp
    | true =>
      interval_cases m
      · have step : hbStep 0 i = some 1 := by
          simp [hbStep, hack, hi, max_missed_heartbeats]
        have lhs : hbReconnects 0 (i :: rest) = hbReconnects 1 rest := by
          simp [hbReconnects, step]
        rw [lhs, ih hrest 1 (by omega), List.map_cons, hack]
        have h1 : headRun (3 - 0) (true :: List.map HBInput.ackTimeout rest)
            = headRun 2 (List.map HBInput.ackTimeout rest) := by
          simp [headRun]
        have h2 : hasRun3 (true :: List.map HBInput.ackTimeout rest)
            = (headRun 2 (List.map HBInput.ackTimeout rest)
               || hasRun3 (List.map HBInput.ackTimeout rest)) := by
          rw [hasRun3_cons]; simp
        rw [h1, h2]
        cases headRun 2 (List.map HBInput.ackTimeout rest) <;> simp
      · have step : hbStep 1 i = some 2 := by
          simp [hbStep, hack, hi, max_missed_heartbeats]
        have lhs : hbReconnects 1 (i :: rest) = hbReconnects 2 rest := by
          simp [hbReconnects, step]
        rw [lhs, ih hrest 2 (by omega), List.map_cons, hack]
        have h1 : headRun (3 - 1) (true :: List.map HBInput.ackTimeout rest)
            = headRun 1 (List.map HBInput.ackTimeout rest) := by
          simp [headRun]
        have h2 : hasRun3 (true :: List.map HBInput.ackTimeout rest)
            = (headRun 2 (List.map HBInput.ackTimeout rest)
               || hasRun3 (List.map HBInput.ackTimeout rest)) := by
          rw [hasRun3_cons]; simp
        rw [h1, h2]
        cases hh2 : headRun 2 (List.map HBInput.ackTimeout rest)
        · simp
        · rw [headRun_two_imp_one _ hh2]
          simp
      · have lhs : hbReconnects 2 (i :: rest) = 1 := by
          simp [hbReconnects, hbStep, hack, max_missed_heartbeats]
        rw [lhs, List.map_cons, hack]
        simp [headRun]

/-- Under valid inputs (no frame with sequence literally `0`), the
stored sequence after a run equals the most recently observed one. -/
lemma seqAfter_eq_lastObserved (l : List GEvent) :
    ∀ acc, (∀ e ∈ l, e ≠ GEvent.inbound (some 0)) →
    seqAfter acc l = lastObservedSeq acc l := by
  induction l with
  | nil => intro acc _; rfl
  | cons e rest ih =>
    intro acc hval
    have hrest : ∀ x ∈ rest, x ≠ GEvent.inbound (some 0) :=
      fun x hx => hval x (List.mem_cons_of_mem e hx)
    cases e with
    | beat => simp [seqAfter, lastObservedSeq, ih _ hrest]
    | inbound s =>
      cases s with
      | none => simp [seqAfter, lastObservedSeq, updateSeq, truthyNat, ih _ hrest]
      | some n =>
        have hn : n ≠ 0 := by
          intro h0
          exact hval (GEvent.inbound (some n)) (List.mem_cons_self _ _) (by rw [h0])
        have ht : truthyNat (some n) = true := by simp [truthyNat, hn]
        simp [seqAfter, lastObservedSeq, updateSeq, ht, ih _ hrest]

/-- Goodness of a stored sequence (absent, or present and truthy) is
preserved by processing valid inputs. -/
lemma seqAfter_good (l : List GEvent) :
    ∀ acc, (∀ e ∈ l, e ≠ GEvent.inbound (some 0)) →
    truthyNat acc = acc.isSome →
    truthyNat (seqAfter acc l) = (seqAfter acc l).isSome := by
  induction l with
  | nil => intro acc _ hacc; exact hacc
  | cons e rest ih =>
    intro acc hval hacc
    have hrest : ∀ x ∈ rest, x ≠ GEvent.inbound (some 0) :=
      fun x hx => hval x (List.mem_cons_of_mem e hx)
    cases e with
    | beat => exact ih _ hrest hacc
    | inbound s =>
      cases s with
      | none => simpa [seqAfter, updateSeq, truthyNat] using ih _ hrest hacc
      | some n =>
        have hn : n ≠ 0 := by
          intro h0
          exact hval (GEvent.inbound (some n)) (List.mem_cons_self _ _) (by rw [h0])
        have ht : truthyNat (some n) = true := by simp [truthyNat, hn]
        have hgood : truthyNat (updateSeq acc (some n))
            = (updateSeq acc (some n)).isSome := by
          simp [updateSeq, ht]
        simpa [seqAfter] using ih _ hrest hgood

/-- A good stored sequence is sent verbatim as the heartbeat payload. -/
lemma heartbeatPayload_good (cur : Option Nat)
    (h : truthyNat cur = cur.isSome) : heartbeatPayload cur = cur := by
  cases cur with
  | none => rfl
  | some n =>
    have ht : truthyNat (some n) = true := by rw [h]; rfl
    simp [heartbeatPayload, ht]

/-- Heartbeat payloads of a concatenated run split at the join. -/
lemma sentBeats_append (p q : List GEvent) :
    ∀ acc, sentBeats acc (p ++ q)
      = sentBeats acc p ++ sentBeats (seqAfter acc p) q := by
  induction p with
  | nil => intro acc; rfl
  | cons e rest ih =>
    intro acc
    cases e with
    | inbound s => simp [sentBeats, seqAfter, ih]
    | beat => simp [sentBeats, seqAfter, ih]

/-- One payload is sent per heartbeat event. -/
lemma sentBeats_length (l : List GEvent) :
    ∀ acc, (sentBeats acc l).length = countBeats l := by
  induction l with
  | nil => intro acc; rfl
  | cons e rest ih =>
    cases e with
    | inbound s => intro acc; simp [sentBeats, countBeats, ih]
    | beat => intro acc; simp [sentBeats, countBeats, ih]

/-! ### Claim theorems -/

/-- Claim C1: `resume` sends a resume frame only when both the stored
session identifier and the stored sequence number are present; when
either is absent it returns failure, sends no frame, and leaves the
session state unmodified. -/
theorem resume_requires_session_and_sequence (conn : Nat → Bool) (st : KState) :
    (resume conn st).1 = st
    ∧ ((resume conn st).2.2 ≠ [] →
        truthyStr st.session_id = true ∧ truthyNat st.sequence = true)
    ∧ ((st.session_id = none ∨ st.sequence = none) →
        (resume conn st).2.1 = false ∧ (resume conn st).2.2 = []) := by
  unfold resume
  cases h : truthyStr st.session_id && truthyNat st.sequence with
  | false => simp [h]
  | true =>
    have h1 := Bool.and_eq_true _ _ |>.mp h
    refine ⟨?_, fun _ => ⟨h1.1, h1.2⟩, ?_⟩
    · cases hs : (send_json conn).1 <;> simp [hs]
    · rintro (hn | hn)
      · rw [hn] at h1
        exact absurd h1.1 (by simp [truthyStr])
      · rw [hn] at h1
        exact absurd h1.2 (by simp [truthyNat])

/-- Witness for C1: on the cleared initial state, `resume` fails and
sends nothing even on a connected transport. -/
theorem resume_requires_witness :
    (resume (fun _ => true) (initState "tok" 0)).2.1 = false
    ∧ (resume (fun _ => true) (initState "tok" 0)).2.2 = [] :=
  (resume_requires_session_and_sequence (fun _ => true) (initState "tok" 0)).2.2
    (Or.inl rfl)

/-- Claim C2: with heartbeat sends succeeding, a run of the heartbeat
loop triggers a reconnect exactly when three consecutive
acknowledgments are missed, and no reconnect happens within any
prefix that lacks three consecutive missed acknowledgments. -/
theorem heartbeat_reconnect_at_threshold (inputs : List HBInput)
    (hsend : ∀ i ∈ inputs, i.sendOk = true) :
    hbReconnects 0 inputs
      = (if hasRun3 (inputs.map HBInput.ackTimeout) then 1 else 0)
    ∧ (∀ p q, inputs = p ++ q →
        hasRun3 (p.map HBInput.ackTimeout) = false →
        hbReconnects 0 p = 0) := by
  have main : ∀ (l : List HBInput), (∀ i ∈ l, i.sendOk = true) →
      hbReconnects 0 l
        = (if hasRun3 (l.map HBInput.ackTimeout) then 1 else 0) := by
    intro l hl
    have h := hbReconnects_eq l hl 0 (by omega)
    rw [h]
    have hcond : (headRun (3 - 0) (l.map HBInput.ackTimeout)
        || hasRun3 (l.map HBInput.ackTimeout))
        = hasRun3 (l.map HBInput.ackTimeout) := by
      simp only [Nat.sub_zero]
      cases hh : headRun 3 (l.map HBInput.ackTimeout)
      · simp
      · simp [headRun_three_imp _ hh]
    rw [hcond]
  refine ⟨main inputs hsend, ?_⟩
  intro p q hpq hno
  have hp : ∀ i ∈ p, i.sendOk = true := by
    intro i hi
    exact hsend i (by rw [hpq]; exact List.mem_append_left q hi)
  rw [main p hp, hno]
  simp

/-- Witness for C2: three straight missed acknowledgments with
successful sends trigger exactly one reconnect; two do not. -/
theorem heartbeat_reconnect_witness :
    hbReconnects 0 [⟨true, true⟩, ⟨true, true⟩, ⟨true, true⟩] = 1
    ∧ hbReconnects 0 [⟨true, true⟩, ⟨true, true⟩] = 0 := by
  have h3 := heartbeat_reconnect_at_threshold
    [⟨true, true⟩, ⟨true, true⟩, ⟨true, true⟩] (by decide)
  have h2 := heartbeat_reconnect_at_threshold
    [⟨true, true⟩, ⟨true, true⟩] (by decide)
  constructor
  · rw [h3.1]; decide
  · rw [h2.1]; decide

/-- Claim C3: within a connection generation whose inbound frames
never carry the (falsy) sequence literal `0`, every heartbeat payload
equals the most recent sequence number observed in inbound frames at
the time of the send, or `none` when nothing has been observed. -/
theorem heartbeat_carries_latest_sequence (p q : List GEvent)
    (hval : ∀ e ∈ p, e ≠ GEvent.inbound (some 0)) :
    (sentBeats none (p ++ GEvent.beat :: q))[countBeats p]?
      = some (lastObservedSeq none p) := by
  rw [sentBeats_append]
  have hlen : (sentBeats none p).length = countBeats p := sentBeats_length p none
  rw [← hlen, List.getElem?_append_right (le_refl _)]
  simp only [Nat.sub_self]
  have hhead : (sentBeats (seqAfter none p) (GEvent.beat :: q))[0]?
      = some (heartbeatPayload (seqAfter none p)) := by
    simp [sentBeats]
  rw [hhead]
  have hgood : truthyNat (seqAfter none p) = (seqAfter none p).isSome :=
    seqAfter_good p none hval rfl
  rw [heartbeatPayload_good _ hgood, seqAfter_eq_lastObserved p none hval]

/-- Witness for C3: after observing sequence 5, the next heartbeat
carries 5. -/
theorem heartbeat_latest_sequence_witness :
    (sentBeats none ([GEvent.inbound (some 5)] ++ GEvent.beat :: []))[0]?
      = some (some 5) := by
  have h := heartbeat_carries_latest_sequence [GEvent.inbound (some 5)] []
    (by decide)
  simpa [countBeats, lastObservedSeq] using h

/-- Claim C4: the reconnect delays of the connect loop are
non-decreasing, double per attempt while below the 30-second cap, and
never exceed the cap. -/
theorem backoff_monotone_capped :
    (∀ i j, i ≤ j → backoffWait i ≤ backoffWait j)
    ∧ (∀ k, backoffWait k ≤ 30)
    ∧ (∀ a n, List.Pairwise (fun x y => x ≤ y) (connectDelays a n))
    ∧ (∀ k, 2 ^ (k + 1) ≤ 30 → backoffWait (k + 1) = 2 * backoffWait k) := by
  have hmono : ∀ i j, i ≤ j → backoffWait i ≤ backoffWait j := by
    intro i j hij
    exact min_le_min (Nat.pow_le_pow_right (by norm_num) hij) le_rfl
  refine ⟨hmono, ?_, ?_, ?_⟩
  · intro k
    exact min_le_right _ _
  · intro a n
    unfold connectDelays
    rw [List.pairwise_map]
    exact (List.pairwise_lt_range n).imp (fun hxy => hmono _ _ (by omega))
  · intro k hk
    have hsplit : 2 ^ (k + 1) = 2 * 2 ^ k := by ring
    have h2k : 2 ^ k ≤ 15 := by omega
    unfold backoffWait
    rw [min_eq_left hk, min_eq_left (by omega : 2 ^ k ≤ 30)]
    ring

/-- Witness for C4: the delay after attempt 3 doubles the delay after
attempt 2, and delays are ordered. -/
theorem backoff_witness :
    backoffWait 3 = 2 * backoffWait 2 ∧ backoffWait 1 ≤ backoffWait 2 :=
  ⟨backoff_monotone_capped.2.2.2 2 (by norm_num),
   backoff_monotone_capped.1 1 2 (by norm_num)⟩

/-- Counterexample to C5: a fresh Identify send does NOT discard the
previously stored session identifier — `identify` sends the frame yet
leaves `session_id` untouched. -/
theorem identify_retains_session_counterexample :
    ((identify (fun _ => true)
        { initState "tok" 0 with session_id := some "old-session" }).1).session_id
      = some "old-session"
    ∧ (identify (fun _ => true)
        { initState "tok" 0 with session_id := some "old-session" }).2.2
      = [Frame.identifyFrame "tok"] :=
  ⟨rfl, rfl⟩

/-- Claim C5 (amended): after a READY dispatch carrying a session id
and a non-zero sequence, both stored values are non-null; `identify`
leaves the stored session identifier unchanged (it is never
discarded). -/
theorem ready_sets_session_and_sequence (connectEff : KState → KState)
    (conn : Nat → Bool) (now : Nat) (st : KState) (f : InFrame)
    (hop : f.op = 0) (ht : f.t = some "READY")
    (hs : ∃ n, f.s = some n ∧ n ≠ 0) (hsid : f.d_session_id ≠ none) :
    (onMessage connectEff conn now st f).1.session_id ≠ none
    ∧ (onMessage connectEff conn now st f).1.sequence ≠ none
    ∧ (∀ c s, (identify c s).1.session_id = s.session_id) := by
  obtain ⟨n, hn, hn0⟩ := hs
  have htr : truthyNat (some n) = true := by simp [truthyNat, hn0]
  refine ⟨?_, ?_, ?_⟩
  · simp [onMessage, hop, ht, hsid]
  · simp [onMessage, hop, ht, updateSequence, updateSeq, hn, htr]
  · intro c s
    unfold identify
    cases hc : (send_json c).1 <;> simp [hc]

/-- Witness for C5 at a concrete READY frame. -/
theorem ready_sets_witness :
    (onMessage id (fun _ => true) 0 (initState "tok" 0)
        { op := 0, t := some "READY", s := some 1
          d_session_id := some "abc123", d_heartbeat_interval := none }).1.session_id
      ≠ none
    ∧ (onMessage id (fun _ => true) 0 (initState "tok" 0)
        { op := 0, t := some "READY", s := some 1
          d_session_id := some "abc123", d_heartbeat_interval := none }).1.sequence
      ≠ none := by
  have h := ready_sets_session_and_sequence id (fun _ => true) 0 (initState "tok" 0)
    { op := 0, t := some "READY", s := some 1
      d_session_id := some "abc123", d_heartbeat_interval := none }
    rfl rfl ⟨1, rfl, one_ne_zero⟩ (Option.some_ne_none _)
  exact ⟨h.1, h.2.1⟩

/-- Counterexample to C6: `send_json` does retry — on a transport that
is never ready it makes all 3 attempts rather than 1, and on a
transport that becomes ready at the second attempt the retried send
actually emits the identify frame. -/
theorem send_retry_counterexample :
    send_json (fun _ => false) = (false, 3)
    ∧ (send_json (fun _ => false)).2 ≠ 1
    ∧ (fun i => decide (i = 1)) 0 = false
    ∧ (identify (fun i => decide (i = 1)) (initState "tok" 0)).2.2
        = [Frame.identifyFrame "tok"] :=
  ⟨rfl, by decide, rfl, rfl⟩

/-- Claim C6 (amended): `send_json` internally retries up to
`max_retries = 3` attempts; when the transport stays unready for the
whole call, `identify` reports failure with no frame sent and no
state change, and no further retry happens beyond the call — at most
one identify frame is ever sent per `identify` call. -/
theorem identify_no_outer_retry (conn : Nat → Bool) (st : KState)
    (h : ∀ i, conn i = false) :
    (identify conn st).2.1 = false
    ∧ (identify conn st).2.2 = []
    ∧ (identify conn st).1 = st
    ∧ (send_json conn).2 = max_retries
    ∧ (∀ c s, (identify c s).2.2.length ≤ 1) := by
  have hsj : send_json conn = (false, max_retries) :=
    sendJsonFrom_all_false conn h max_retries 0
  refine ⟨?_, ?_, ?_, ?_, ?_⟩
  · simp [identify, hsj]
  · simp [identify, hsj]
  · simp [identify, hsj]
  · rw [hsj]
  · intro c s
    unfold identify
    cases hc : (send_json c).1 <;> simp [hc]

/-- Witness for C6 on a never-ready transport. -/
theorem identify_no_outer_retry_witness :
    (identify (fun _ => false) (initState "tok" 0)).2.1 = false
    ∧ (identify (fun _ => false) (initState "tok" 0)).2.2 = [] := by
  have h := identify_no_outer_retry (fun _ => false) (initState "tok" 0)
    (fun i => rfl)
  exact ⟨h.1, h.2.1⟩

/-- Counterexample to C7: processing a Hello frame does not reset the
reconnect-attempt counter — a counter of 5 stays 5. -/
theorem hello_attempts_counterexample :
    ((onMessage id (fun _ => true) 0
        { initState "tok" 0 with reconnect_attempts := 5 }
        { op := 10, t := none, s := none
          d_session_id := none, d_heartbeat_interval := some 41250 }).1).reconnect_attempts
      = 5
    ∧ (5 : Nat) ≠ 0 :=
  ⟨rfl, by decide⟩

/-- Claim C7 (amended): the Hello handler stores the advertised
interval, sends Identify (when the transport lets it), and marks the
heartbeat loop started, but leaves the reconnect-attempt counter
unchanged; that counter is reset to zero by `on_open` when the
connection opens. -/
theorem hello_effects (connectEff : KState → KState) (conn : Nat → Bool)
    (now : Nat) (st : KState) (f : InFrame) (iv : Nat)
    (hop : f.op = 10) (hiv : f.d_heartbeat_interval = some iv) :
    (onMessage connectEff conn now st f).1.reconnect_attempts
      = st.reconnect_attempts
    ∧ (onMessage connectEff conn now st f).1.heartbeat_interval = iv
    ∧ (onMessage connectEff conn now st f).1.heartbeatThreadAlive = true
    ∧ (onMessage connectEff conn now st f).2
        = (if (send_json conn).1 then [Frame.identifyFrame st.token] else [])
    ∧ (∀ n s, (on_open n s).reconnect_attempts = 0) := by
  refine ⟨?_, ?_, ?_, ?_, fun n s => rfl⟩ <;>
    · simp only [onMessage, hop, hiv, identify, updateSequence]
      cases hc : (send_json conn).1 <;> simp [hc]

/-- Witness for C7 at a concrete Hello frame. -/
theorem hello_effects_witness :
    (onMessage id (fun _ => true) 0
        { initState "tok" 0 with reconnect_attempts := 4 }
        { op := 10, t := none, s := none
          d_session_id := none, d_heartbeat_interval := some 41250 }).1.reconnect_attempts
      = 4
    ∧ (onMessage id (fun _ => true) 0
        { initState "tok" 0 with reconnect_attempts := 4 }
        { op := 10, t := none, s := none
          d_session_id := none, d_heartbeat_interval := some 41250 }).1.heartbeat_interval
      = 41250 := by
  have h := hello_effects id (fun _ => true) 0
    { initState "tok" 0 with reconnect_attempts := 4 }
    { op := 10, t := none, s := none
      d_session_id := none, d_heartbeat_interval := some 41250 }
    41250 rfl rfl
  exact ⟨h.1, h.2.1⟩

/-- Claim C8: with `DISCORD_TOKEN` absent, `main` prints the setup
instructions and returns cleanly (exit 0) without constructing the
session manager or opening a gateway connection; constructing the
client directly with no token raises. -/
theorem missing_token_clean_exit (backgroundConnections : Nat)
    (tok : Option String) (h : tok = none) :
    mainStartup backgroundConnections tok =
      { printedInstructions := true
        exitCode := 0
        clientConstructed := false
        gatewayConnections := 0 }
    ∧ (∀ now, initClient now tok
        = Except.error "DISCORD_TOKEN is required") := by
  subst h
  exact ⟨rfl, fun now => rfl⟩

/-- Witness for C8 at a concrete environment. -/
theorem missing_token_witness :
    mainStartup 7 none =
      { printedInstructions := true
        exitCode := 0
        clientConstructed := false
        gatewayConnections := 0 } :=
  (missing_token_clean_exit 7 none rfl).1

/-- Claim C9: `stop` clears the running flag, closes the transport
exactly when one is present, never raises, and is idempotent — a
second call raises no error, leaves the flag false, and does not
change the state further. -/
theorem stop_idempotent (st : KState) :
    (stop st).1.running = false
    ∧ (stop st).2.1 = st.wsPresent
    ∧ (stop st).2.2 = false
    ∧ (stop (stop st).1).1 = (stop st).1
    ∧ (stop (stop st).1).1.running = false
    ∧ (stop (stop st).1).2.2 = false :=
  ⟨rfl, rfl, rfl, rfl, rfl, rfl⟩

/-- Claim C10: `reconnect` hands `connect` a state whose sequence is
cleared to `none` while the session identifier is retained, and on
that state the resume precondition fails: `resume` returns failure
and sends no frame. -/
theorem reconnect_clears_sequence_resume_fails (connectEff : KState → KState)
    (conn : Nat → Bool) (st : KState) :
    reconnect connectEff st = connectEff { st with sequence := none }
    ∧ ({ st with sequence := none } : KState).sequence = none
    ∧ ({ st with sequence := none } : KState).session_id = st.session_id
    ∧ (resume conn { st with sequence := none }).2.1 = false
    ∧ (resume conn { st with sequence := none }).2.2 = [] := by
  refine ⟨rfl, rfl, rfl, ?_, ?_⟩ <;> simp [resume, truthyNat]

end Keepalive
